import Mathlib

/-!
Shallow embedding of `search_utilities.py`: a thin query layer over a
question-and-answer schema (`Post`, `se_user`).  Tables are modelled as
lists of rows, a database cursor as the pair of tables, SQL `SELECT`
queries as list filters / nested-loop joins, `ORDER BY` as a stable sort
by the ordering key, `DISTINCT` as duplicate removal, and SQL `SUM` as a
nullable aggregate.  Dates are modelled as integers (only comparison is
used).  Python name-resolution failures (`cau` references the undefined
identifiers `post_id` and `cur`) are modelled with `Except`.
-/

namespace SearchUtilities

/-- Time bins are a tuple `(start, end)` denoting the start and end dates
of a time range (`TimeBin = namedtuple('TimeBin', 'start end')`). -/
structure TimeBin where
  start : Int
  «end» : Int
deriving Repr, DecidableEq

/-- A row of the `Post` table, with the fields the queries read:
`id`, `owner_user_id`, `post_type_id` (1 = question, 2 = answer),
`parent_id` (nullable), `creation_date`, `score`. -/
structure Post where
  id : Int
  owner_user_id : Int
  post_type_id : Int
  parent_id : Option Int
  creation_date : Int
  score : Int
deriving Repr, DecidableEq

/-- A row of the `se_user` table: `id`, `reputation`. -/
structure se_user where
  id : Int
  reputation : Int
deriving Repr, DecidableEq

/-- The database visible through the cursor: the `Post` and `se_user`
tables. -/
structure DB where
  posts : List Post
  users : List se_user
deriving Repr, DecidableEq

/-- `posts_by_type(cursor, post_type=None)`: rows `(id, owner_user_id)`
of posts with `post_type_id = post_type`, defaulting to 1 (questions). -/
def posts_by_type (db : DB) (post_type : Option Int) : List (Int × Int) :=
  let pt := match post_type with
    | none => 1
    | some t => t
  (db.posts.filter (fun p => decide (p.post_type_id = pt))).map
    (fun p => (p.id, p.owner_user_id))

/-- `posts_within_timebin(cursor, timebin)`: ids of posts with
`creation_date > start AND creation_date < end` (strict bounds). -/
def posts_within_timebin (db : DB) (timebin : TimeBin) : List Int :=
  (db.posts.filter (fun p =>
      decide (p.creation_date > timebin.start ∧ p.creation_date < timebin.«end»))).map
    (fun p => p.id)

/-- `posts_by_user(cursor, user_id, timebin=None)`: ids of posts with
`owner_user_id = user_id`, optionally also strictly within the timebin.
The two branches mirror the two query strings of the source. -/
def posts_by_user (db : DB) (user_id : Int) (timebin : Option TimeBin) : List Int :=
  match timebin with
  | none =>
      (db.posts.filter (fun p => decide (p.owner_user_id = user_id))).map
        (fun p => p.id)
  | some tb =>
      (db.posts.filter (fun p =>
          decide (p.owner_user_id = user_id ∧
            p.creation_date > tb.start ∧ p.creation_date < tb.«end»))).map
        (fun p => p.id)

/-- `users_above_threshold(cursor, threshold)`: ids of users with
`reputation > threshold` (strict). -/
def users_above_threshold (db : DB) (threshold : Int) : List Int :=
  (db.users.filter (fun u => decide (u.reputation > threshold))).map
    (fun u => u.id)

/-- `users_in_post(cursor, post_id, timebin=None)`:
`SELECT DISTINCT t1.owner_user_id FROM Post t1 INNER JOIN Post t2 ON
t1.parent_id = t2.id WHERE t1.post_type_id = 2 AND t2.post_type_id = 1
AND t2.id = post_id` (timebin branch adds strict date bounds on
`t1.creation_date`).  `DISTINCT` is modelled by `List.dedup`. -/
def users_in_post (db : DB) (post_id : Int) (timebin : Option TimeBin) : List Int :=
  match timebin with
  | none =>
      (db.posts.flatMap (fun t1 => db.posts.filterMap (fun t2 =>
        if t1.parent_id = some t2.id ∧ t1.post_type_id = 2 ∧
            t2.post_type_id = 1 ∧ t2.id = post_id
        then some t1.owner_user_id else none))).dedup
  | some tb =>
      (db.posts.flatMap (fun t1 => db.posts.filterMap (fun t2 =>
        if t1.parent_id = some t2.id ∧ t1.post_type_id = 2 ∧
            t2.post_type_id = 1 ∧ t2.id = post_id ∧
            t1.creation_date > tb.start ∧ t1.creation_date < tb.«end»
        then some t1.owner_user_id else none))).dedup

/-- One row of the joined relation of `users_by_tournament` before
projection: `Post q INNER JOIN Post a1 ON q.id = a1.parent_id INNER JOIN
Post a2 ON q.id = a2.parent_id INNER JOIN se_user u1 ON u1.id =
a1.owner_user_id INNER JOIN se_user u2 ON u2.id = a2.owner_user_id`. -/
structure TRow where
  q : Post
  a1 : Post
  a2 : Post
  u1 : se_user
  u2 : se_user
deriving Repr, DecidableEq

/-- The `ORDER BY` key of `users_by_tournament`:
`GREATEST(a1.creation_date, a2.creation_date)`. -/
def tournamentKey (r : TRow) : Int :=
  max r.a1.creation_date r.a2.creation_date

/-- The joined rows of `users_by_tournament`, per branch.  The timebin
branch adds `WHERE a1.creation_date > start AND a1.creation_date < end
AND a2.creation_date > start AND a2.creation_date < end`. -/
def tournamentRows (db : DB) (timebin : Option TimeBin) : List TRow :=
  match timebin with
  | none =>
      db.posts.flatMap fun q =>
      db.posts.flatMap fun a1 =>
      db.posts.flatMap fun a2 =>
      db.users.flatMap fun u1 =>
      db.users.filterMap fun u2 =>
        if a1.parent_id = some q.id ∧ a2.parent_id = some q.id ∧
            u1.id = a1.owner_user_id ∧ u2.id = a2.owner_user_id
        then some ⟨q, a1, a2, u1, u2⟩ else none
  | some tb =>
      db.posts.flatMap fun q =>
      db.posts.flatMap fun a1 =>
      db.posts.flatMap fun a2 =>
      db.users.flatMap fun u1 =>
      db.users.filterMap fun u2 =>
        if a1.parent_id = some q.id ∧ a2.parent_id = some q.id ∧
            u1.id = a1.owner_user_id ∧ u2.id = a2.owner_user_id ∧
            a1.creation_date > tb.start ∧ a1.creation_date < tb.«end» ∧
            a2.creation_date > tb.start ∧ a2.creation_date < tb.«end»
        then some ⟨q, a1, a2, u1, u2⟩ else none

/-- The joined rows after `ORDER BY GREATEST(a1.creation_date,
a2.creation_date)`, modelled as a stable sort by the key. -/
def sortedTournamentRows (db : DB) (timebin : Option TimeBin) : List TRow :=
  (tournamentRows db timebin).insertionSort
    (fun r s => tournamentKey r ≤ tournamentKey s)

/-- The `SELECT` projection of `users_by_tournament`:
`u1.id, a1.score, u2.id, a2.score`, regrouped by the Python generator
into `((u1.id, a1.score), (u2.id, a2.score))`. -/
def tournamentProj (r : TRow) : (Int × Int) × (Int × Int) :=
  ((r.u1.id, r.a1.score), (r.u2.id, r.a2.score))

/-- `users_by_tournament(cursor, timebin=None)`: pairs
`((user_id, score), (user_id, score))` from the quadruple join, ordered
by the greater of the two answers' creation dates. -/
def users_by_tournament (db : DB) (timebin : Option TimeBin) :
    List ((Int × Int) × (Int × Int)) :=
  (sortedTournamentRows db timebin).map tournamentProj

/-- A Python identifier that fails to resolve (raises `NameError`). -/
inductive PyName where
  | post_id : PyName
  | cur : PyName
deriving Repr, DecidableEq

/-- SQL `SUM(score)` over the rows selected by `cau`'s no-timebin query
(`WHERE owner_user_id = user_id AND post_type_id = 2`): `NULL` on an
empty row set, otherwise the sum of the scores. -/
def cauQuery (db : DB) (user_id : Int) : Option Int :=
  let rows := db.posts.filter (fun p =>
    decide (p.owner_user_id = user_id ∧ p.post_type_id = 2))
  if rows.isEmpty then none else some (rows.map (fun p => p.score)).sum

/-- `cau(cursor, user_id, timebin=None)`.  The no-timebin branch executes
its query (its aggregate is `cauQuery`) but the final
`return cur.fetchone()` references the undefined name `cur`, so the call
raises `NameError` instead of returning.  The timebin branch fails even
earlier: its bind-parameter dictionary is written
`{'user_id': post_id, ...}` and `post_id` is not defined in the
function's scope, so building it raises `NameError` before the query
runs. -/
def cau (db : DB) (user_id : Int) (timebin : Option TimeBin) :
    Except PyName (Option Int) :=
  match timebin with
  | none =>
      let _executed := cauQuery db user_id
      Except.error PyName.cur
  | some _ => Except.error PyName.post_id

/-- Whether a post's creation date falls strictly within an optional
timebin (trivially true when no timebin is given); the condition the
timebin branches of the queries add. -/
def withinBin (timebin : Option TimeBin) (p : Post) : Prop :=
  match timebin with
  | none => True
  | some tb => p.creation_date > tb.start ∧ p.creation_date < tb.«end»

instance (timebin : Option TimeBin) (p : Post) : Decidable (withinBin timebin p) := by
  unfold withinBin
  cases timebin <;> infer_instance

/-! Concrete datasets used by counterexamples and witnesses. -/

/-- The question `Q` (id 100) of the spec's scenario dataset. -/
def qRow : Post :=
  { id := 100, owner_user_id := 9, post_type_id := 1, parent_id := none,
    creation_date := 1, score := 0 }

/-- Answer `A1` of the scenario: owner user 1, score 3, created day 2. -/
def a1Row : Post :=
  { id := 101, owner_user_id := 1, post_type_id := 2, parent_id := some 100,
    creation_date := 2, score := 3 }

/-- Answer `A2` of the scenario: owner user 2, score 5, created day 3. -/
def a2Row : Post :=
  { id := 102, owner_user_id := 2, post_type_id := 2, parent_id := some 100,
    creation_date := 3, score := 5 }

/-- User 1 of the scenario. -/
def u1Row : se_user := { id := 1, reputation := 10 }

/-- User 2 of the scenario. -/
def u2Row : se_user := { id := 2, reputation := 20 }

/-- The spec's scenario dataset: one question `Q` (id 100) with two
answers `A1` (id 101, owner 1, score 3, day 2) and `A2` (id 102, owner
2, score 5, day 3), both answer owners present in `se_user`. -/
def ds1 : DB :=
  { posts := [qRow, a1Row, a2Row], users := [u1Row, u2Row] }

/-- C1: the spec's scenario claims `users_by_tournament()` yields exactly
the single pair `((1,3),(2,5))` on the one-question/two-answer dataset.
It does not: the join has no constraint forcing `a1 ≠ a2` (nor an
ordering between them), so the output is not that one-element list. -/
theorem users_by_tournament_scenario_not_single_pair :
    users_by_tournament ds1 none ≠ [((1, 3), (2, 5))] := by
  decide

/-- C1 (amended): on the scenario dataset `users_by_tournament()` yields
exactly the four pairs `((1,3),(1,3))`, `((1,3),(2,5))`, `((2,5),(1,3))`,
`((2,5),(2,5))` — the two self-pairings and both orderings of the two
answers — with the pair keyed by day 2 first and the three day-3 pairs
following in join order (tie order among equal keys is store-defined;
the embedding's stable sort realises one such order). -/
theorem users_by_tournament_scenario_four_pairs :
    users_by_tournament ds1 none =
      [((1, 3), (1, 3)), ((1, 3), (2, 5)), ((2, 5), (1, 3)), ((2, 5), (2, 5))] := by
  decide

/-- C2: for every database, user id and timebin, the timebin branch of
`cau` fails with a name-resolution error on the identifier `post_id`
(used to bind the user filter but not defined in the function's scope)
instead of filtering by the supplied user id and returning an
aggregate. -/
theorem cau_timebin_branch_name_error (db : DB) (user_id : Int) (tb : TimeBin) :
    cau db user_id (some tb) = Except.error PyName.post_id :=
  rfl

/-- C3: every invocation of `cau` — with or without a timebin — ends in a
name-resolution error rather than returning an aggregate; in particular
the no-timebin branch, which reaches the final fetch, fails there on the
undefined name `cur`. -/
theorem cau_never_returns (db : DB) (user_id : Int) :
    cau db user_id none = Except.error PyName.cur ∧
    ∀ timebin : Option TimeBin, ∃ n : PyName,
      cau db user_id timebin = Except.error n := by
  refine ⟨rfl, fun timebin => ?_⟩
  cases timebin
  case none => exact ⟨PyName.cur, rfl⟩
  case some tb => exact ⟨PyName.post_id, rfl⟩

/-- A dataset with posts but no answer (`post_type_id = 2`) owned by user
7: user 7 owns only a question, and the one answer belongs to user 8. -/
def ds6 : DB :=
  { posts :=
      [ { id := 1, owner_user_id := 7, post_type_id := 1, parent_id := none,
          creation_date := 1, score := 4 },
        { id := 2, owner_user_id := 8, post_type_id := 2, parent_id := some 1,
          creation_date := 2, score := 6 } ],
    users := [ { id := 7, reputation := 50 }, { id := 8, reputation := 60 } ] }

/-- C6: the spec says `cau(user_id=7)` with no answers for user 7 returns
`None`/null.  The query's aggregate is indeed null there (`cauQuery`),
but the code never returns it: `return cur.fetchone()` references the
undefined name `cur` (the parameter is `cursor`), so the call raises
`NameError` instead of returning `None`. -/
theorem cau_user7_raises_instead_of_none :
    cauQuery ds6 7 = none ∧ cau ds6 7 none = Except.error PyName.cur :=
  ⟨by decide, rfl⟩

/-- Any choice of rows satisfying the join's `ON`/`WHERE` conditions
produces a row of the joined relation of `users_by_tournament`. -/
lemma mem_tournamentRows (db : DB) (timebin : Option TimeBin)
    (q a1 a2 : Post) (u1 u2 : se_user)
    (hq : q ∈ db.posts) (ha1 : a1 ∈ db.posts) (ha2 : a2 ∈ db.posts)
    (hu1 : u1 ∈ db.users) (hu2 : u2 ∈ db.users)
    (hp1 : a1.parent_id = some q.id) (hp2 : a2.parent_id = some q.id)
    (ho1 : u1.id = a1.owner_user_id) (ho2 : u2.id = a2.owner_user_id)
    (hb1 : withinBin timebin a1) (hb2 : withinBin timebin a2) :
    (⟨q, a1, a2, u1, u2⟩ : TRow) ∈ tournamentRows db timebin := by
  cases timebin with
  | none =>
      simp only [tournamentRows, List.mem_flatMap, List.mem_filterMap]
      refine ⟨q, hq, a1, ha1, a2, ha2, u1, hu1, u2, hu2, ?_⟩
      rw [if_pos ⟨hp1, hp2, ho1, ho2⟩]
  | some tb =>
      obtain ⟨hs1, he1⟩ := hb1
      obtain ⟨hs2, he2⟩ := hb2
      simp only [tournamentRows, List.mem_flatMap, List.mem_filterMap]
      refine ⟨q, hq, a1, ha1, a2, ha2, u1, hu1, u2, hu2, ?_⟩
      rw [if_pos ⟨hp1, hp2, ho1, ho2, hs1, he1, hs2, he2⟩]

/-- C4's counterexample dataset: an answer (id 2, owner 5, score 7) whose
parent question exists, but whose owner is missing from `se_user`. -/
def ds4 : DB :=
  { posts :=
      [ { id := 1, owner_user_id := 9, post_type_id := 1, parent_id := none,
          creation_date := 0, score := 0 },
        { id := 2, owner_user_id := 5, post_type_id := 2, parent_id := some 1,
          creation_date := 1, score := 7 } ],
    users := [] }

/-- C4: the claim that *every* post with a parent yields the self-pair is
too strong: the `INNER JOIN se_user` steps also require the post's owner
to be a row of `se_user`.  In `ds4` post 2 has a parent (question 1) but
owner 5 is not in `se_user`, and its self-pair is absent. -/
theorem users_by_tournament_self_pair_needs_user :
    ((5, 7), (5, 7)) ∉ users_by_tournament ds4 none := by
  decide

/-- C4 (amended): the join of `users_by_tournament` places no inequality
constraint between the two answer rows and no `post_type_id` constraint
on any joined row.  For any rows `q`, `a1`, `a2` of `Post` (of any post
type) with `a1.parent_id = a2.parent_id = q.id`, and owners `u1`, `u2`
present in `se_user`, both dates within the optional timebin, the output
contains `((u1.id, a1.score), (u2.id, a2.score))` and the swapped pair —
hence self-pairs (`a1 = a2`), both orderings of two distinct answers,
and non-answer posts with a matching `parent_id` all appear. -/
theorem users_by_tournament_contains_all_join_pairs (db : DB)
    (timebin : Option TimeBin) (q a1 a2 : Post) (u1 u2 : se_user)
    (hq : q ∈ db.posts) (ha1 : a1 ∈ db.posts) (ha2 : a2 ∈ db.posts)
    (hu1 : u1 ∈ db.users) (hu2 : u2 ∈ db.users)
    (hp1 : a1.parent_id = some q.id) (hp2 : a2.parent_id = some q.id)
    (ho1 : u1.id = a1.owner_user_id) (ho2 : u2.id = a2.owner_user_id)
    (hb1 : withinBin timebin a1) (hb2 : withinBin timebin a2) :
    ((u1.id, a1.score), (u2.id, a2.score)) ∈ users_by_tournament db timebin ∧
    ((u2.id, a2.score), (u1.id, a1.score)) ∈ users_by_tournament db timebin := by
  constructor
  · exact List.mem_map_of_mem tournamentProj
      ((List.perm_insertionSort _ _).mem_iff.mpr
        (mem_tournamentRows db timebin q a1 a2 u1 u2 hq ha1 ha2 hu1 hu2
          hp1 hp2 ho1 ho2 hb1 hb2))
  · exact List.mem_map_of_mem tournamentProj
      ((List.perm_insertionSort _ _).mem_iff.mpr
        (mem_tournamentRows db timebin q a2 a1 u2 u1 hq ha2 ha1 hu2 hu1
          hp2 hp1 ho2 ho1 hb2 hb1))

/-- C4 (witness): on the scenario dataset the amended theorem yields both
orderings of the two answers. -/
theorem users_by_tournament_contains_all_join_pairs_witness :
    ((1, 3), (2, 5)) ∈ users_by_tournament ds1 none ∧
    ((2, 5), (1, 3)) ∈ users_by_tournament ds1 none :=
  users_by_tournament_contains_all_join_pairs ds1 none qRow a1Row a2Row
    u1Row u2Row (by decide) (by decide) (by decide) (by decide) (by decide)
    (by decide) (by decide) (by decide) (by decide) (by decide) (by decide)

/-- C5: the output of `users_by_tournament` is the projection of the
joined rows sorted non-decreasing by
`GREATEST(a1.creation_date, a2.creation_date)`: along `sortedTournamentRows`
the key is non-decreasing, and the output is its image under the
`SELECT` projection. -/
theorem users_by_tournament_sorted_by_greatest_date (db : DB)
    (timebin : Option TimeBin) :
    List.Pairwise (fun r s => tournamentKey r ≤ tournamentKey s)
      (sortedTournamentRows db timebin) ∧
    users_by_tournament db timebin =
      (sortedTournamentRows db timebin).map tournamentProj := by
  constructor
  · haveI : IsTotal TRow (fun r s => tournamentKey r ≤ tournamentKey s) :=
      ⟨fun r s => le_total _ _⟩
    haveI : IsTrans TRow (fun r s => tournamentKey r ≤ tournamentKey s) :=
      ⟨fun _ _ _ hrs hst => le_trans hrs hst⟩
    exact List.sorted_insertionSort _ _
  · rfl

/-- C7: for every degenerate timebin (`end <= start`, including
`start = end`), `posts_within_timebin` yields the empty sequence: the
strict comparisons `creation_date > start` and `creation_date < end`
jointly exclude every row. -/
theorem posts_within_timebin_degenerate_empty (db : DB) (tb : TimeBin)
    (h : tb.«end» ≤ tb.start) : posts_within_timebin db tb = [] := by
  have hf : db.posts.filter (fun p =>
      decide (p.creation_date > tb.start ∧ p.creation_date < tb.«end»)) = [] := by
    rw [List.filter_eq_nil_iff]
    intro p _
    simp only [decide_eq_true_eq, not_and, not_lt, gt_iff_lt]
    intro hgt
    omega
  unfold posts_within_timebin
  rw [hf]
  rfl

/-- C7 (witness): the scenario dataset has posts, yet the equal-bounds
timebin `(2, 2)` selects none of them. -/
theorem posts_within_timebin_degenerate_empty_witness :
    (TimeBin.mk 2 2).«end» ≤ (TimeBin.mk 2 2).start ∧
    posts_within_timebin ds1 (TimeBin.mk 2 2) = [] :=
  ⟨by decide, posts_within_timebin_degenerate_empty ds1 (TimeBin.mk 2 2) (by decide)⟩

/-- C8: every post id yielded by `posts_by_user` with a timebin is also
yielded by `posts_by_user` without one on the same dataset — the timebin
branch only adds conjuncts to the same `WHERE` clause. -/
theorem posts_by_user_timebin_subset (db : DB) (user_id : Int) (tb : TimeBin)
    (x : Int) (hx : x ∈ posts_by_user db user_id (some tb)) :
    x ∈ posts_by_user db user_id none := by
  simp only [posts_by_user, List.mem_map, List.mem_filter,
    decide_eq_true_eq] at hx ⊢
  obtain ⟨p, ⟨hp, hcond⟩, rfl⟩ := hx
  exact ⟨p, ⟨hp, hcond.1⟩, rfl⟩

/-- C8 (witness): post 101 (user 1, day 2) is yielded both with the
timebin `(0, 10)` and without one. -/
theorem posts_by_user_timebin_subset_witness :
    101 ∈ posts_by_user ds1 1 (some (TimeBin.mk 0 10)) ∧
    101 ∈ posts_by_user ds1 1 none :=
  ⟨by decide, posts_by_user_timebin_subset ds1 1 (TimeBin.mk 0 10) 101 (by decide)⟩

/-- C9: `users_in_post` never yields a user id more than once, with or
without a timebin: the `SELECT DISTINCT` (modelled by `dedup`) removes
duplicates even when a user authored several answers to the question. -/
theorem users_in_post_nodup (db : DB) (post_id : Int)
    (timebin : Option TimeBin) : (users_in_post db post_id timebin).Nodup := by
  cases timebin with
  | none => exact List.nodup_dedup _
  | some tb => exact List.nodup_dedup _

/-- C10: `users_above_threshold` yields exactly the ids of users whose
reputation is strictly greater than the threshold; a user whose
reputation equals the threshold is excluded. -/
theorem users_above_threshold_iff (db : DB) (threshold x : Int) :
    x ∈ users_above_threshold db threshold ↔
      ∃ u ∈ db.users, u.id = x ∧ threshold < u.reputation := by
  simp only [users_above_threshold, List.mem_map, List.mem_filter,
    decide_eq_true_eq, gt_iff_lt]
  constructor
  · rintro ⟨u, ⟨hu, hrep⟩, rfl⟩
    exact ⟨u, hu, rfl, hrep⟩
  · rintro ⟨u, hu, rfl, hrep⟩
    exact ⟨u, ⟨hu, hrep⟩, rfl⟩

end SearchUtilities
